import Mathlib

/-!
Verification of the `Result` response wrapper and the `GithubGraphQL.query`
post-processing of the ghgql repository.

Embedding conventions:
* Decoded JSON values (Python objects after `json` decoding) are modelled by
  the inductive type `Json`.  Python `None` and JSON `null` are both decoded
  to Python `None`, modelled here by `Json.null`.
* A Python `dict` is modelled as an association list with at most one binding
  per key; lookup finds the first binding.
* `json.loads` is a standard-library collaborator, so the traversal is
  parameterised over an arbitrary decoder `loads`; a failing call raises
  `json.JSONDecodeError`, modelled by `PyError.jsonDecodeError`.
* Python runtime exceptions that the source can raise are modelled by
  `PyError`; a function that can raise returns `Except PyError Json`.
-/

namespace Ghgql

/-- Model of a decoded JSON / Python value as it appears in a query response. -/
inductive Json where
  | null
  | bool (b : Bool)
  | num (n : Int)
  | str (s : String)
  | arr (elems : List Json)
  | obj (fields : List (String × Json))

/-- Python runtime exceptions reachable from the modelled code paths. -/
inductive PyError where
  | typeError
  | keyError
  | jsonDecodeError
deriving DecidableEq

/-- First binding of key `k` in an association-list dict, as Python dict lookup. -/
def lookupKey : List (String × Json) → String → Option Json
  | [], _ => none
  | p :: rest, k => if p.1 = k then some p.2 else lookupKey rest k

/-- Python `k in d` for a dict `d`. -/
def hasKey (kvs : List (String × Json)) (k : String) : Bool :=
  (lookupKey kvs k).isSome

/-- Whether `p` is a leading block of `s` (character lists). -/
def leadsList : List Char → List Char → Bool
  | [], _ => true
  | _ :: _, [] => false
  | a :: as, b :: bs => a = b && leadsList as bs

/-- Whether `needle` occurs contiguously inside `hay` (character lists). -/
def subOf (needle : List Char) : List Char → Bool
  | [] => needle.isEmpty
  | b :: rest => leadsList needle (b :: rest) || subOf needle rest

/-- Python substring test `k in s` for strings. -/
def pyStrContains (hay k : String) : Bool :=
  subOf k.toList hay.toList

/-- Python membership test `k in v` where `k` is a string: key test on a dict,
substring test on a string, element-equality test on a list, `TypeError` on
`None`, booleans and numbers. -/
def pyContains (v : Json) (k : String) : Except PyError Bool :=
  match v with
  | Json.obj kvs => Except.ok (hasKey kvs k)
  | Json.str s => Except.ok (pyStrContains s k)
  | Json.arr xs =>
      Except.ok (xs.any fun x =>
        match x with
        | Json.str s => s = k
        | _ => false)
  | _ => Except.error PyError.typeError

/-- Python subscript `v[k]` where `k` is a string: dict lookup (KeyError when
missing); `TypeError` on strings, lists and everything else, since their
indices must be integers. -/
def pySubscript (v : Json) (k : String) : Except PyError Json :=
  match v with
  | Json.obj kvs =>
      match lookupKey kvs k with
      | some w => Except.ok w
      | none => Except.error PyError.keyError
  | _ => Except.error PyError.typeError

/-- Helper for `splitDots`: split a character list on the dot character,
accumulating the current segment reversed. -/
def splitDotsAux : List Char → List Char → List (List Char)
  | [], acc => [acc.reverse]
  | c :: cs, acc =>
      if c = '.' then acc.reverse :: splitDotsAux cs []
      else splitDotsAux cs (c :: acc)

/-- Python `key.split(".")`: always at least one segment; empty segments are
kept (so an empty string splits to one empty segment and a double dot yields
an empty segment in the middle). -/
def splitDots (s : String) : List String :=
  (splitDotsAux s.toList []).map fun cs => String.mk cs

/-- The `Result.data` property: the value under key `"data"` when present,
Python `None` otherwise. -/
def dataProp (r : List (String × Json)) : Json :=
  match lookupKey r "data" with
  | some v => v
  | none => Json.null

/-- The `Result.errors` property: the value under key `"errors"` when present,
Python `None` otherwise. -/
def errorsProp (r : List (String × Json)) : Json :=
  match lookupKey r "errors" with
  | some v => v
  | none => Json.null

/-- The per-iteration JSON-decoding step of `Result.get`: when the cursor is a
string other than the literal `"null"` it is replaced by `loads` applied to
it, otherwise it is kept unchanged. -/
def parseStep (loads : String → Except PyError Json) (cur : Json) :
    Except PyError Json :=
  match cur with
  | Json.str s => if s = "null" then Except.ok (Json.str s) else loads s
  | other => Except.ok other

/-- The `for k in keys` loop of `Result.get`: decode a string cursor, test
`k in current_value`, descend on success, return the default on failure, and
return the final cursor once the segments are exhausted. -/
def getLoop (loads : String → Except PyError Json) :
    List String → Json → Json → Except PyError Json
  | [], cur, _ => Except.ok cur
  | k :: rest, cur, dflt =>
      match parseStep loads cur with
      | Except.error e => Except.error e
      | Except.ok c =>
          match pyContains c k with
          | Except.error e => Except.error e
          | Except.ok true =>
              match pySubscript c k with
              | Except.error e => Except.error e
              | Except.ok v => getLoop loads rest v dflt
          | Except.ok false => Except.ok dflt

/-- `Result.get(key, default)`: split the key on dots and run the traversal
loop starting from the `data` property.  The Python default value `None`
corresponds to passing `Json.null` for `dflt`. -/
def resultGet (loads : String → Except PyError Json)
    (r : List (String × Json)) (key : String) (dflt : Json) :
    Except PyError Json :=
  getLoop loads (splitDots key) (dataProp r) dflt

/-- The remainder of one loop iteration of `Result.get` after the decoding
step: membership test, descent, default return, continuing with the loop. -/
def contAfter (loads : String → Except PyError Json) (k : String)
    (rest : List String) (c dflt : Json) : Except PyError Json :=
  match pyContains c k with
  | Except.error e => Except.error e
  | Except.ok true =>
      match pySubscript c k with
      | Except.error e => Except.error e
      | Except.ok v => getLoop loads rest v dflt
  | Except.ok false => Except.ok dflt

/-- Pure dictionary-path resolution: descend through nested dicts only,
failing when a segment is missing or the cursor is not a dict.  Used to state
which cursor the traversal of `Result.get` reaches. -/
def resolvePath : Json → List String → Option Json
  | cur, [] => some cur
  | Json.obj kvs, k :: rest =>
      match lookupKey kvs k with
      | some v => resolvePath v rest
      | none => none
  | _, _ :: _ => none

/-- A JSON decoder that fails on every input; stands in for `json.loads` in
closed instances whose traversals never decode successfully. -/
def loadsStub : String → Except PyError Json :=
  fun _ => Except.error PyError.jsonDecodeError

/-- A JSON decoder that decodes the two-character string consisting of an
opening and a closing square bracket to the empty list and fails elsewhere;
stands in for `json.loads` in closed instances that decode once. -/
def loadsSample : String → Except PyError Json :=
  fun s => if s = "[]" then Except.ok (Json.arr []) else Except.error PyError.jsonDecodeError

/-- The nested test fixture from the repository's test suite. -/
def sampleData : Json :=
  Json.obj [("status", Json.obj [("item", Json.obj [("id", Json.str "123")])])]

/-- A response mapping holding `sampleData` under `"data"`. -/
def sampleRes : List (String × Json) :=
  [("data", sampleData)]

/-- Python truthiness of an optional boolean flag: `None` and `False` are
falsy, `True` is truthy. -/
def truthy : Option Bool → Bool
  | some b => b
  | none => false

/-- The effective raise-on-error flag of `GithubGraphQL.query`:
`kwargs.get("raise_on_error", self.__raise_on_error)` — the per-call value
when the keyword was supplied, the instance-level value otherwise. -/
def effFlag (perCall instFlag : Option Bool) : Option Bool :=
  match perCall with
  | some b => some b
  | none => instFlag

/-- Model of `fnc.get("errors[0].message", res, default="GraphQL Error")` from
the `fnc` library for this fixed path: the `"message"` value of the first
entry of the `"errors"` list, or the string `"GraphQL Error"` when any step
fails to resolve.  The surrounding Python `str(...)` conversion is
presentational and not modelled. -/
def firstErrorMessage (res : List (String × Json)) : Json :=
  match lookupKey res "errors" with
  | some (Json.arr (Json.obj kvs :: _)) =>
      match lookupKey kvs "message" with
      | some m => m
      | none => Json.str "GraphQL Error"
  | _ => Json.str "GraphQL Error"

/-- Outcome of the error-handling tail of `GithubGraphQL.query` on a decoded
response: either the response is returned unchanged or a `RuntimeError`
carrying a message is raised. -/
inductive QueryOutcome where
  | ok (res : List (String × Json))
  | raised (message : Json)

/-- The tail of `GithubGraphQL.query` after JSON decoding: raise when the
decoded response has an `"errors"` key and the effective raise-on-error flag
is truthy, otherwise return the response unchanged. -/
def queryPost (instFlag perCall : Option Bool) (res : List (String × Json)) :
    QueryOutcome :=
  if hasKey res "errors" && truthy (effFlag perCall instFlag) then
    QueryOutcome.raised (firstErrorMessage res)
  else QueryOutcome.ok res

/-- Traversal lemma: when a leading block of segments resolves through nested
dicts to a cursor `c`, the loop of `Result.get` continues from `c` on the
remaining segments. -/
theorem getLoop_resolve (loads : String → Except PyError Json)
    (pre : List String) (ks : List String) (cur c dflt : Json)
    (h : resolvePath cur pre = some c) :
    getLoop loads (pre ++ ks) cur dflt = getLoop loads ks c dflt := by
  induction pre generalizing cur with
  | nil =>
      simp [resolvePath] at h
      subst h
      rfl
  | cons p ps ih =>
      cases cur with
      | null => simp [resolvePath] at h
      | bool b => simp [resolvePath] at h
      | num n => simp [resolvePath] at h
      | str s => simp [resolvePath] at h
      | arr xs => simp [resolvePath] at h
      | obj kvs =>
          simp only [resolvePath] at h
          cases hL : lookupKey kvs p with
          | none => rw [hL] at h; simp at h
          | some v =>
              rw [hL] at h
              simp only [List.cons_append, getLoop, parseStep, pyContains,
                hasKey, hL, Option.isSome_some, pySubscript]
              exact ih v h

example : splitDots "status.item.id" = ["status", "item", "id"] := rfl

example : splitDots "" = [""] := rfl

example : splitDots "a..b" = ["a", "", "b"] := rfl

example : resultGet loadsStub sampleRes "status.item.id" Json.null
    = Except.ok (Json.str "123") := rfl

example : resultGet loadsStub sampleRes "status.item.id2" (Json.num 42)
    = Except.ok (Json.num 42) := rfl

example : resultGet loadsStub [] "a" (Json.num 42)
    = Except.error PyError.typeError := rfl

/-- C1 counterexample: on a response that contains an `"errors"` key next to
traversable data, `Result.get` returns the traversed value instead of failing
with a ResponseErrorsPresent error. -/
theorem c1_counterexample :
    resultGet loadsStub
      [("errors", Json.arr [Json.obj [("message", Json.str "boom")]]),
       ("data", Json.obj [("id", Json.str "123")])]
      "id" Json.null
      = Except.ok (Json.str "123") := rfl

/-- C1 (amended): `Result.get` never consults the `"errors"` key: adding an
`"errors"` binding in front of any underlying mapping leaves the outcome of
`get` unchanged for every decoder, path and default, even though the errors
key is then present. -/
theorem c1_errors_ignored (loads : String → Except PyError Json) (e : Json)
    (r : List (String × Json)) (key : String) (dflt : Json) :
    hasKey (("errors", e) :: r) "errors" = true ∧
    resultGet loads (("errors", e) :: r) key dflt = resultGet loads r key dflt :=
  ⟨rfl, rfl⟩

/-- C2 counterexample: with data present, an unresolved path and the Python
default `None`, `Result.get` returns `None` — it does not fail with a
PathNotFoundError. -/
theorem c2_counterexample :
    resultGet loadsStub [("data", Json.obj [("a", Json.num 1)])] "b" Json.null
      = Except.ok Json.null := rfl

/-- C2 (amended): when the first path segment is missing from the mapping
data, `Result.get` returns the default value; since an unsupplied default is
the Python value `None`, the call returns `None` rather than failing. -/
theorem c2_missing_returns_default (loads : String → Except PyError Json)
    (r : List (String × Json)) (key : String) (dflt : Json)
    (k : String) (rest : List String) (kvs : List (String × Json))
    (hsplit : splitDots key = k :: rest)
    (hdata : dataProp r = Json.obj kvs)
    (hmiss : lookupKey kvs k = none) :
    resultGet loads r key dflt = Except.ok dflt := by
  unfold resultGet
  rw [hsplit, hdata]
  simp [getLoop, parseStep, pyContains, hasKey, hmiss]

/-- C2 witness: the amended statement at the concrete mapping with key `"a"`
only, path `"b"` and default `42`. -/
theorem c2_witness :
    resultGet loadsStub [("data", Json.obj [("a", Json.num 1)])] "b" (Json.num 42)
      = Except.ok (Json.num 42) :=
  c2_missing_returns_default loadsStub [("data", Json.obj [("a", Json.num 1)])]
    "b" (Json.num 42) "b" [] [("a", Json.num 1)] rfl rfl rfl

/-- C3 counterexample: the empty path splits to one empty segment, yet
`Result.get` does not fail with an InvalidPathError: it looks the empty
segment up like any key and returns the default. -/
theorem c3_counterexample :
    resultGet loadsStub [("data", Json.obj [("a", Json.num 1)])] "" (Json.num 7)
      = Except.ok (Json.num 7) := rfl

/-- C3 (amended): `Result.get` performs no path validation: an empty segment
is looked up as an ordinary key, so when traversal reaches it at a mapping
without an empty-string key the call returns the default (Python `None` when
no default was supplied) instead of failing. -/
theorem c3_empty_segment_ordinary_key (loads : String → Except PyError Json)
    (r : List (String × Json)) (key : String) (dflt : Json)
    (pre rest : List String) (kvs : List (String × Json))
    (hsplit : splitDots key = pre ++ "" :: rest)
    (hres : resolvePath (dataProp r) pre = some (Json.obj kvs))
    (hmiss : lookupKey kvs "" = none) :
    resultGet loads r key dflt = Except.ok dflt := by
  unfold resultGet
  rw [hsplit, getLoop_resolve loads pre ("" :: rest) (dataProp r) (Json.obj kvs) dflt hres]
  simp [getLoop, parseStep, pyContains, hasKey, hmiss]

/-- C3 witness: the amended statement at the double-dot path `"a..b"` over
nested mappings. -/
theorem c3_witness :
    resultGet loadsStub [("data", Json.obj [("a", Json.obj [("c", Json.num 1)])])]
      "a..b" (Json.num 7) = Except.ok (Json.num 7) :=
  c3_empty_segment_ordinary_key loadsStub
    [("data", Json.obj [("a", Json.obj [("c", Json.num 1)])])]
    "a..b" (Json.num 7) ["a"] ["b"] [("c", Json.num 1)] rfl rfl rfl

/-- C4 counterexample: on a response without data and with default `42`
supplied, `Result.get` raises a `TypeError` (membership test against `None`)
instead of returning the default. -/
theorem c4_counterexample :
    resultGet loadsStub [] "a" (Json.num 42) = Except.error PyError.typeError := rfl

/-- C4 (amended): when the `"data"` key is absent or bound to `null`, the
`data` property is Python `None` and the first loop iteration of `Result.get`
evaluates `k in None`, raising a `TypeError` — for every path and every
default, supplied or not. -/
theorem c4_no_data_raises (loads : String → Except PyError Json)
    (r : List (String × Json)) (key : String) (dflt : Json)
    (k : String) (rest : List String)
    (hsplit : splitDots key = k :: rest)
    (hdata : dataProp r = Json.null) :
    resultGet loads r key dflt = Except.error PyError.typeError := by
  unfold resultGet
  rw [hsplit, hdata]
  simp [getLoop, parseStep, pyContains]

/-- C4 witness: the amended statement at a response binding `"data"` to
`null`, with a default supplied. -/
theorem c4_witness :
    resultGet loadsStub [("data", Json.null)] "a" (Json.num 42)
      = Except.error PyError.typeError :=
  c4_no_data_raises loadsStub [("data", Json.null)] "a" (Json.num 42) "a" [] rfl rfl

/-- C5: over all-mapping data, a path whose segments all resolve yields
exactly the nested value regardless of the default, and a path whose
traversal reaches a mapping that lacks the next segment yields the supplied
default. -/
theorem c5_resolution (loads : String → Except PyError Json)
    (r : List (String × Json)) (key : String) (dflt : Json) (segs : List String)
    (hsplit : splitDots key = segs)
    (herr : hasKey r "errors" = false) :
    (∀ v, resolvePath (dataProp r) segs = some v →
        resultGet loads r key dflt = Except.ok v) ∧
    (∀ pre k rest kvs, segs = pre ++ k :: rest →
        resolvePath (dataProp r) pre = some (Json.obj kvs) →
        lookupKey kvs k = none →
        resultGet loads r key dflt = Except.ok dflt) := by
  constructor
  · intro v hv
    unfold resultGet
    rw [hsplit]
    have h2 := getLoop_resolve loads segs [] (dataProp r) v dflt hv
    rw [List.append_nil] at h2
    rw [h2]
    rfl
  · intro pre k rest kvs hseg hres hmiss
    unfold resultGet
    rw [hsplit, hseg,
      getLoop_resolve loads pre (k :: rest) (dataProp r) (Json.obj kvs) dflt hres]
    simp [getLoop, parseStep, pyContains, hasKey, hmiss]

/-- C5 witness: the repository's own test fixture — the resolving path
returns the nested string ignoring the default, and the unresolved sibling
path returns the default. -/
theorem c5_witness :
    resultGet loadsStub sampleRes "status.item.id" (Json.num 42)
        = Except.ok (Json.str "123") ∧
    resultGet loadsStub sampleRes "status.item.id2" (Json.num 42)
        = Except.ok (Json.num 42) := by
  constructor
  · exact (c5_resolution loadsStub sampleRes "status.item.id" (Json.num 42)
      ["status", "item", "id"] rfl rfl).1 (Json.str "123") rfl
  · exact (c5_resolution loadsStub sampleRes "status.item.id2" (Json.num 42)
      ["status", "item", "id2"] rfl rfl).2 ["status", "item"] "id2" []
      [("id", Json.str "123")] rfl rfl rfl

/-- C6: at a segment step of `Result.get`, a string cursor other than the
literal `"null"` is replaced by its JSON decoding before the segment lookup,
while the literal `"null"` string and every non-string cursor reach the
lookup unchanged, with no decoding attempted. -/
theorem c6_parse_replacement (loads : String → Except PyError Json)
    (k : String) (rest : List String) (cur dflt : Json) :
    ((cur = Json.str "null" ∨ ∀ s, cur ≠ Json.str s) →
        getLoop loads (k :: rest) cur dflt = contAfter loads k rest cur dflt) ∧
    (∀ s v, cur = Json.str s → s ≠ "null" → loads s = Except.ok v →
        getLoop loads (k :: rest) cur dflt = contAfter loads k rest v dflt) := by
  constructor
  · intro h
    cases cur with
    | str s =>
        rcases h with h | h
        · rw [h]
          simp [getLoop, parseStep, contAfter]
        · exact absurd rfl (h s)
    | null => simp [getLoop, parseStep, contAfter]
    | bool b => simp [getLoop, parseStep, contAfter]
    | num n => simp [getLoop, parseStep, contAfter]
    | arr xs => simp [getLoop, parseStep, contAfter]
    | obj kvs => simp [getLoop, parseStep, contAfter]
  · intro s v hcur hnn hload
    subst hcur
    simp [getLoop, parseStep, hnn, hload, contAfter]

/-- C6 witness: the decoder replaces the bracket-pair string by the empty
list before lookup, and a numeric cursor reaches the lookup unchanged. -/
theorem c6_witness :
    getLoop loadsSample ["x"] (Json.str "[]") (Json.num 7)
        = contAfter loadsSample "x" [] (Json.arr []) (Json.num 7) ∧
    getLoop loadsSample ["x"] (Json.num 1) (Json.num 7)
        = contAfter loadsSample "x" [] (Json.num 1) (Json.num 7) := by
  constructor
  · exact (c6_parse_replacement loadsSample "x" [] (Json.str "[]") (Json.num 7)).2
      "[]" (Json.arr []) rfl (by decide) rfl
  · exact (c6_parse_replacement loadsSample "x" [] (Json.num 1) (Json.num 7)).1
      (Or.inr fun s => by simp)

/-- C7 counterexample: with the path `"a.b"` resolving to `null` at `"a"` and
default `42` supplied, `Result.get` raises a `TypeError` instead of returning
the default. -/
theorem c7_counterexample :
    resultGet loadsStub [("data", Json.obj [("a", Json.null)])] "a.b" (Json.num 42)
      = Except.error PyError.typeError := rfl

/-- C7 (amended): when traversal reaches a `null` cursor with at least one
segment left, the membership test `k in None` raises a `TypeError` for every
default, supplied or not; `null` is never treated as a mapping, but the
failure is a `TypeError`, not a not-found outcome or the default. -/
theorem c7_null_cursor_raises (loads : String → Except PyError Json)
    (r : List (String × Json)) (key : String) (dflt : Json)
    (pre : List String) (k : String) (rest : List String)
    (hsplit : splitDots key = pre ++ k :: rest)
    (hres : resolvePath (dataProp r) pre = some Json.null) :
    resultGet loads r key dflt = Except.error PyError.typeError := by
  unfold resultGet
  rw [hsplit, getLoop_resolve loads pre (k :: rest) (dataProp r) Json.null dflt hres]
  simp [getLoop, parseStep, pyContains]

/-- C7 witness: the amended statement at nested data binding `"a"` to `null`
and path `"a.b"`. -/
theorem c7_witness :
    resultGet loadsStub [("data", Json.obj [("a", Json.null)])] "a.b" Json.null
      = Except.error PyError.typeError :=
  c7_null_cursor_raises loadsStub [("data", Json.obj [("a", Json.null)])]
    "a.b" Json.null ["a"] "b" [] rfl rfl

/-- C8 counterexample: with raise-on-error enabled per call and a response
whose `"errors"` key is bound to an empty list, `GithubGraphQL.query` raises
(with the generic fallback message) even though the errors list is not
non-empty, refuting the claimed equivalence. -/
theorem c8_counterexample :
    queryPost none (some true) [("errors", Json.arr [])]
      = QueryOutcome.raised (Json.str "GraphQL Error") := rfl

/-- C8 (amended): `GithubGraphQL.query` raises, carrying the first error's
message or the generic fallback, exactly when the effective raise-on-error
flag is truthy and the `"errors"` key is present — regardless of whether the
errors list is empty — and otherwise returns the decoded response unchanged;
a supplied per-call flag takes precedence over the instance-level flag. -/
theorem c8_raise_condition (instFlag perCall : Option Bool)
    (res : List (String × Json)) :
    (queryPost instFlag perCall res = QueryOutcome.raised (firstErrorMessage res)
        ↔ hasKey res "errors" = true ∧ truthy (effFlag perCall instFlag) = true) ∧
    (queryPost instFlag perCall res = QueryOutcome.ok res
        ↔ ¬(hasKey res "errors" = true ∧ truthy (effFlag perCall instFlag) = true)) ∧
    (∀ b, effFlag (some b) instFlag = some b) ∧
    effFlag none instFlag = instFlag := by
  refine ⟨?_, ?_, fun b => rfl, rfl⟩
  · cases hE : hasKey res "errors" <;>
      cases hT : truthy (effFlag perCall instFlag) <;>
        simp [queryPost, hE, hT]
  · cases hE : hasKey res "errors" <;>
      cases hT : truthy (effFlag perCall instFlag) <;>
        simp [queryPost, hE, hT]

/-- C8 witness: instance flag `False`, per-call flag `True`, one error with a
message — the call raises carrying that message, showing both the raise
condition and the per-call precedence. -/
theorem c8_witness :
    queryPost (some false) (some true)
      [("errors", Json.arr [Json.obj [("message", Json.str "boom")]])]
      = QueryOutcome.raised (Json.str "boom") :=
  ((c8_raise_condition (some false) (some true)
      [("errors", Json.arr [Json.obj [("message", Json.str "boom")]])]).1).mpr
    ⟨rfl, rfl⟩

/-- C9: a response binding `"data"` to `null` and a response lacking the
`"data"` key are indistinguishable: the `data` property returns the same
`None` indicator and `Result.get` produces the same outcome for every
decoder, path and default. -/
theorem c9_null_data_indistinguishable (r₁ r₂ : List (String × Json))
    (h₁ : lookupKey r₁ "data" = some Json.null)
    (h₂ : lookupKey r₂ "data" = none) :
    dataProp r₁ = dataProp r₂ ∧
    ∀ (loads : String → Except PyError Json) (key : String) (dflt : Json),
      resultGet loads r₁ key dflt = resultGet loads r₂ key dflt := by
  have hd : dataProp r₁ = dataProp r₂ := by
    unfold dataProp
    rw [h₁, h₂]
  refine ⟨hd, fun loads key dflt => ?_⟩
  unfold resultGet
  rw [hd]

/-- C9 witness: a response with `"data"` bound to `null` and a response with
no `"data"` key produce the same `get` outcome at a concrete path and
default. -/
theorem c9_witness :
    resultGet loadsStub [("data", Json.null)] "a.b" (Json.num 5)
      = resultGet loadsStub [("x", Json.num 0)] "a.b" (Json.num 5) :=
  (c9_null_data_indistinguishable [("data", Json.null)] [("x", Json.num 0)]
      rfl rfl).2 loadsStub "a.b" (Json.num 5)

/-- C10: when traversal reaches a string cursor other than the literal
`"null"` and the JSON decoder fails on it, `Result.get` fails with the
decoding error for every default, supplied or not — the default does not
suppress the decode failure. -/
theorem c10_decode_error_not_suppressed (loads : String → Except PyError Json)
    (r : List (String × Json)) (key : String) (dflt : Json)
    (pre : List String) (k : String) (rest : List String) (s : String)
    (hsplit : splitDots key = pre ++ k :: rest)
    (hres : resolvePath (dataProp r) pre = some (Json.str s))
    (hnn : s ≠ "null")
    (hload : loads s = Except.error PyError.jsonDecodeError) :
    resultGet loads r key dflt = Except.error PyError.jsonDecodeError := by
  unfold resultGet
  rw [hsplit, getLoop_resolve loads pre (k :: rest) (dataProp r) (Json.str s) dflt hres]
  simp [getLoop, parseStep, hnn, hload]

/-- C10 witness: data binding `"a"` to the non-JSON string `"oops"`, path
`"a.b"`, default `42` — the call fails with the decoding error. -/
theorem c10_witness :
    resultGet loadsStub [("data", Json.obj [("a", Json.str "oops")])] "a.b" (Json.num 42)
      = Except.error PyError.jsonDecodeError :=
  c10_decode_error_not_suppressed loadsStub
    [("data", Json.obj [("a", Json.str "oops")])] "a.b" (Json.num 42)
    ["a"] "b" [] "oops" rfl rfl (by decide) rfl

end Ghgql
